import Mathlib

/-
  Verification development for the cryptopro repository.

  Shallow embedding of the two core components:
  * the resilient price-fetch client (public/js/cors-helper.js:
    fetchWithCORS, mockCryptoPrice, getWalletData and its wallet cache), and
  * the buy/sell ledger routes of the backend (Backend/server.js).

  JavaScript numbers are idealised as rationals (ℚ): all arithmetic used by
  the embedded fragment is +, -, *, /; overflow and binary rounding of IEEE
  doubles are immaterial to the claims checked here, and toFixed is modelled
  exactly on ℚ.  Where JavaScript division by zero would produce NaN or
  Infinity the ℚ convention x / 0 = 0 applies; every place this matters is
  noted next to the definition.  Nondeterminism (Math.random, Date.now,
  network outcomes) is made explicit as environment parameters.
-/

namespace CryptoPro

/-- JS Number.prototype.toFixed(2), idealised on ℚ.  The ECMA spec picks the
integer n with n / 10^f closest to x, ties toward the larger n, which is
exactly the floor of x * 100 + 1/2. -/
def toFixed2 (x : ℚ) : ℚ := ((⌊x * 100 + 1/2⌋ : ℤ) : ℚ) / 100

/-- JS Number.prototype.toFixed(4), idealised on ℚ. -/
def toFixed4 (x : ℚ) : ℚ := ((⌊x * 10000 + 1/2⌋ : ℤ) : ℚ) / 10000

/-- The base-price table inside mockCryptoPrice (cors-helper.js lines 49-58):
an object literal indexed by symbol, with default 100 for unknown symbols. -/
def basePrice (s : String) : ℚ :=
  if s = "BTC" then 50000
  else if s = "ETH" then 3000
  else if s = "DOGE" then 1/4
  else if s = "XRP" then 6/5
  else if s = "ADA" then 5/2
  else if s = "SOL" then 150
  else if s = "DOT" then 30
  else if s = "LTC" then 180
  else 100

/-- The symbols that appear as keys of the base-price table. -/
def knownSymbols : List String :=
  ["BTC", "ETH", "DOGE", "XRP", "ADA", "SOL", "DOT", "LTC"]

/-- mockCryptoPrice (cors-helper.js lines 48-63).  `r` stands for the value
returned by Math.random(), so 0 ≤ r ≤ 1 in every real execution.
Code: variance = basePrice * 0.05; return basePrice + (r * variance * 2 - variance). -/
def mockCryptoPrice (s : String) (r : ℚ) : ℚ :=
  let base := basePrice s
  let variance := base * (5/100)
  base + (r * variance * 2 - variance)

/-- Retry configuration (cors-helper.js lines 17-18). -/
def MAX_RETRIES : Nat := 3

def INITIAL_RETRY_DELAY : ℚ := 1000

/-- Wallet-cache TTL in milliseconds (cors-helper.js line 23). -/
def CACHE_DURATION : ℚ := 10000

/-- The JSON body of an API response, as the fields the embedded fragment
reads.  A JavaScript object simply lacks the properties the code never set;
here an absent property is `none`.  In particular the mock fallback of
fetchWithCORS (lines 200-205) sets only success, price, symbol and
timestamp: it has no source property. -/
structure ApiResponse where
  success : Bool
  price : Option ℚ
  symbol : Option String
  timestamp : Option ℚ
  source : Option String
  message : Option String
deriving DecidableEq, Repr

/-- Outcome of one direct fetch of the upstream URL, as distinguished by
fetchWithCORS (lines 93-137):
* ok: response.ok and the body parsed as JSON (returned verbatim);
* okText: response.ok but the body was not JSON (wrapped as
  success/message, lines 117-121);
* rateLimited: status 429, with the Retry-After header when present
  (line 101; `none` models an absent or empty header);
* httpError: response not ok with the given status; the code then throws
  Error(errorData.message or the default), caught in the same iteration
  (`none` models an error body without a message field);
* netError: fetch itself rejected with the given message. -/
inductive DirectOutcome where
  | ok (body : ApiResponse)
  | okText (text : String)
  | rateLimited (retryAfter : Option ℚ)
  | httpError (status : Nat) (msg : Option String)
  | netError (msg : String)
deriving DecidableEq, Repr

/-- Outcome of one proxy fetch (lines 161-193):
* ok: proxyResponse.ok and a JSON body (either parse succeeds, or the text
  fallback JSON.parse succeeds, lines 177-188);
* okText: ok but the text is not JSON either, wrapped as success/message;
* fail: non-ok status or thrown error, with the message stored in
  lastError. -/
inductive ProxyOutcome where
  | ok (body : ApiResponse)
  | okText (text : String)
  | fail (msg : String)
deriving DecidableEq, Repr

/-- The environment of one fetchWithCORS call: what the network and the
clock and Math.random would do.  `direct a` is the outcome of the (a+1)-th
direct attempt; `proxy i` the outcome for the i-th entry of CORS_PROXIES
(three proxies, lines 10-14); `rand` the Math.random() draw used by the
mock fallback; `now` the current time. -/
structure FetchEnv where
  direct : Nat → DirectOutcome
  proxy : Fin 3 → ProxyOutcome
  rand : ℚ
  now : ℚ

/-- String.prototype.includes: sub occurs contiguously in s.  (Char-list
infix search; String.splitOn would be the same test but its Lean
implementation is proof-opaque.) -/
def strIncludes (s sub : String) : Bool :=
  s.data.tails.any (fun t => sub.data.isPrefixOf t)

/-- error.message.includes for the two substrings tested at line 129. -/
def rateLimitText (m : String) : Bool :=
  strIncludes m "rate limit" || strIncludes m "429"

/-- What the direct-retry loop (lines 89-139) produced: the returned body
when an attempt succeeded, the number of fetch calls issued, and the sleep
delays awaited, in order. -/
structure DirectResult where
  result : Option ApiResponse
  fetches : Nat
  delays : List ℚ
deriving DecidableEq, Repr

/-- The direct-retry loop of fetchWithCORS (lines 89-139), as a recursion
on the remaining iterations.  `a` is the JS loop variable `attempt`; the
entry point is fuel = MAX_RETRIES, a = 0, so fuel = MAX_RETRIES - a
throughout.
* A 429 sleeps for (Retry-After or INITIAL_RETRY_DELAY * 2^attempt) and
  continues (lines 100-105) — even on the last attempt, after which the
  loop condition fails.
* A thrown error (non-ok status, line 111, or a failed fetch) is caught at
  line 122: on the last attempt, break to the proxies; otherwise retry
  after an exponential delay when the message mentions a rate limit, else
  break. -/
def directGo (env : FetchEnv) : Nat → Nat → DirectResult
  | 0, _ => ⟨none, 0, []⟩
  | fuel + 1, a =>
    match env.direct a with
    | .ok body => ⟨some body, 1, []⟩
    | .okText t => ⟨some ⟨true, none, none, none, none, some t⟩, 1, []⟩
    | .rateLimited ra =>
        let d := ra.getD (INITIAL_RETRY_DELAY * 2 ^ a)
        let rest := directGo env fuel (a + 1)
        ⟨rest.result, rest.fetches + 1, d :: rest.delays⟩
    | .httpError status msg =>
        let m := msg.getD ("Server error: " ++ toString status)
        if a = MAX_RETRIES - 1 then ⟨none, 1, []⟩
        else if rateLimitText m then
          let rest := directGo env fuel (a + 1)
          ⟨rest.result, rest.fetches + 1, (INITIAL_RETRY_DELAY * 2 ^ a) :: rest.delays⟩
        else ⟨none, 1, []⟩
    | .netError m =>
        if a = MAX_RETRIES - 1 then ⟨none, 1, []⟩
        else if rateLimitText m then
          let rest := directGo env fuel (a + 1)
          ⟨rest.result, rest.fetches + 1, (INITIAL_RETRY_DELAY * 2 ^ a) :: rest.delays⟩
        else ⟨none, 1, []⟩

/-- The proxy loop (lines 148-194): proxies tried in order, first success
returned, each failure remembered in lastError; when all fail the error
value is lastError (the default message stands in only for the unreachable
empty-proxy-list case). -/
def proxyScanList : List ProxyOutcome → Option String → Except String ApiResponse
  | [], lastError =>
      .error (lastError.getD "All API connection methods failed. The server may be temporarily unavailable. Please try again later.")
  | o :: os, _lastError =>
      match o with
      | .ok body => .ok body
      | .okText t => .ok ⟨true, none, none, none, none, some t⟩
      | .fail m => proxyScanList os (some m)

/-- endpoint === wallet special cases at line 73. -/
def isWalletEndpoint (e : String) : Bool :=
  e == "/api/wallet" || e == "/api/transactions"

/-- endpoint.includes for the crypto-price special case at line 197. -/
def isCryptoPriceEndpoint (e : String) : Bool :=
  strIncludes e "crypto-price"

/-- Coin extraction at line 199: endpoint.split on the equals sign, then
pop — that is, the substring after the last equals sign (the whole string
when there is none). -/
def extractCoin (e : String) : String :=
  ⟨(e.data.reverse.takeWhile (fun c => c ≠ '=')).reverse⟩

/-- What a fetchWithCORS call can do for its caller: resolve with a JSON
body, reject (throw), or delegate to getWalletData (the wallet special
case at lines 73-76, whose value is covered by the getWalletData model
below). -/
inductive FetchResult where
  | ok (body : ApiResponse)
  | thrown (msg : String)
  | walletDelegate
deriving DecidableEq, Repr

/-- The continuation of fetchWithCORS once every direct attempt has failed
(lines 141-210): the proxy chain, then for crypto-price endpoints the mock
body (success, mockCryptoPrice of the extracted coin, symbol, timestamp —
and nothing else), otherwise a thrown error. -/
def fetchAfterDirect (endpoint : String) (env : FetchEnv) : FetchResult :=
  match proxyScanList [env.proxy 0, env.proxy 1, env.proxy 2] none with
  | .ok body => .ok body
  | .error lastMsg =>
      if isCryptoPriceEndpoint endpoint then
        .ok ⟨true, some (mockCryptoPrice (extractCoin endpoint) env.rand),
             some (extractCoin endpoint), some env.now, none, none⟩
      else .thrown lastMsg

/-- fetchWithCORS (cors-helper.js lines 71-211). -/
def fetchWithCORS (endpoint : String) (env : FetchEnv) : FetchResult :=
  if isWalletEndpoint endpoint then .walletDelegate
  else
    match (directGo env MAX_RETRIES 0).result with
    | some body => .ok body
    | none => fetchAfterDirect endpoint env

/-- One element of walletData.wallet, the purchases array the backend
returns (server.js userSchema.purchases as read by getWalletData at line
272: coin, quantity, purchasePrice).  parseFloat coercion of a missing or
zero field is the value 0. -/
structure Purchase where
  coin : String
  quantity : ℚ
  purchasePrice : ℚ
deriving DecidableEq, Repr

/-- The coin → display-symbol table (cors-helper.js lines 275-284), with
the fallback coin.substring(0,3).toUpperCase(). -/
def coinSymbol (coin : String) : String :=
  if coin = "Bitcoin" then "BTC"
  else if coin = "Ethereum" then "ETH"
  else if coin = "Dogecoin" then "DOGE"
  else if coin = "Ripple" then "XRP"
  else if coin = "Cardano" then "ADA"
  else if coin = "Solana" then "SOL"
  else if coin = "Polkadot" then "DOT"
  else if coin = "Litecoin" then "LTC"
  else (coin.take 3).toUpper

/-- The coin → icon table (cors-helper.js lines 254-263), default
fas fa-coins. -/
def coinIcon (coin : String) : String :=
  if coin = "Bitcoin" then "fab fa-bitcoin"
  else if coin = "Ethereum" then "fab fa-ethereum"
  else if coin = "Dogecoin" then "fas fa-dog"
  else if coin = "Ripple" then "fas fa-water"
  else if coin = "Cardano" then "fas fa-globe"
  else if coin = "Solana" then "fas fa-sun"
  else if coin = "Polkadot" then "fas fa-dot-circle"
  else if coin = "Litecoin" then "fas fa-litecoin-sign"
  else "fas fa-coins"

/-- One entry of the coinHoldings accumulator (lines 286-299): running
quantity and totalInvested per coin (the currentPrice slot, initialised 0
and overwritten later, carries no information and is omitted). -/
structure Group where
  coin : String
  symbol : String
  icon : String
  quantity : ℚ
  totalInvested : ℚ
deriving DecidableEq, Repr

/-- Replace the first entry satisfying the coin test, leave the rest —
the effect of mutating the object found by Array.prototype.find. -/
def updateFirstGroup (coin : String) (f : Group → Group) : List Group → List Group
  | [] => []
  | g :: gs => if g.coin = coin then f g :: gs else g :: updateFirstGroup coin f gs

/-- The grouping loop of getWalletData (lines 271-299): fold the purchases
in order; a first occurrence creates the group (JS object keys preserve
insertion order, so groups are ordered by first appearance), later
occurrences add quantity and quantity * purchasePrice to it. -/
def addPurchase (gs : List Group) (p : Purchase) : List Group :=
  if gs.any (fun g => g.coin == p.coin) then
    updateFirstGroup p.coin
      (fun g => { g with quantity := g.quantity + p.quantity,
                         totalInvested := g.totalInvested + p.quantity * p.purchasePrice }) gs
  else
    gs ++ [⟨p.coin, coinSymbol p.coin, coinIcon p.coin,
            p.quantity, p.quantity * p.purchasePrice⟩]

def groupPurchases (ps : List Purchase) : List Group :=
  ps.foldl addPurchase []

/-- Outcome of the per-coin price fetch at line 314
(GET /crypto-price?coin=...):
* ok: the fetch resolved and the body parsed, with its success flag, its
  price field (none models a missing or non-numeric price, whose
  parseFloat is NaN) and its previousPrice field (none models absence);
* fail: the fetch or the JSON parse threw (caught at line 320). -/
inductive PriceFetchOutcome where
  | ok (success : Bool) (price : Option ℚ) (previousPrice : Option ℚ)
  | fail
deriving DecidableEq, Repr

/-- Environment of one aggregation pass: the price-endpoint outcome per
query string (the code queries coin.substring(0,3), line 314), and the two
Math.random() draws per coin used by the mock path (lines 326-327). -/
structure PriceEnv where
  price : String → PriceFetchOutcome
  rand1 : String → ℚ
  rand2 : String → ℚ

/-- One element of the holdings array getWalletData builds (lines
358-372).  The JS object stores quantity, avgBuyPrice, currentPrice,
totalPrice and profitLoss as toFixed strings; parseFloat recovers exactly
the rounded value, so they are modelled as the rounded rationals.
changeValue is stored as the raw number.  The purely presentational
fields (change24h/roi strings with sign prefix, CSS class names) are the
rounded values and signs already present here and are not separately
modelled. -/
structure Holding where
  coin : String
  symbol : String
  icon : String
  quantity : ℚ
  avgBuyPrice : ℚ
  currentPrice : ℚ
  totalPrice : ℚ
  profitLoss : ℚ
  changeValue : ℚ
deriving DecidableEq, Repr

/-- The per-coin body of the holdings loop (lines 306-372).  The outer
try/catch (lines 373-402) is unreachable in this idealisation — the inner
fetch failure is already caught at line 320 and the remaining statements
cannot throw — so only the main path is embedded.
* currentPrice and previousPrice start as 0; a successful fetch with a
  truthy success flag sets them (previousPrice falls back to
  currentPrice * 0.95 when the field is falsy, line 318);
* if currentPrice is falsy or NaN (line 325): mock price, and a previous
  price at a random 95-105 percent of it;
* quantity: parseFloat(group.quantity) || 0.0001 — a zero accumulated
  quantity becomes 0.0001, a negative one passes through (line 334);
* totalInvested: parseFloat(group.totalInvested) || quantity *
  currentPrice * 0.95 (line 338). -/
def mkHolding (env : PriceEnv) (g : Group) : Holding :=
  let fetched := env.price (g.coin.take 3)
  let cur0 : Option ℚ :=
    match fetched with
    | .ok true pr _ => pr
    | _ => some 0
  let prev0 : ℚ :=
    match fetched with
    | .ok true pr prev =>
        match prev with
        | some v => if v = 0 then (pr.getD 0) * (95/100) else v
        | none => (pr.getD 0) * (95/100)
    | _ => 0
  let useMock : Bool :=
    match cur0 with
    | none => true
    | some v => v = 0
  let currentPrice := if useMock then mockCryptoPrice g.symbol (env.rand1 g.coin) else cur0.getD 0
  let previousPrice :=
    if useMock then currentPrice * (95/100 + env.rand2 g.coin * (1/10)) else prev0
  let quantity := if g.quantity = 0 then 1/10000 else g.quantity
  let totalValue := quantity * currentPrice
  let totalInvested :=
    if g.totalInvested = 0 then quantity * currentPrice * (95/100) else g.totalInvested
  let avgBuyPrice := totalInvested / quantity
  let priceChange24h := (currentPrice - previousPrice) / previousPrice * 100
  let profitLoss := totalValue - totalInvested
  ⟨g.coin, g.symbol, g.icon, toFixed4 quantity, toFixed2 avgBuyPrice,
   toFixed2 currentPrice, toFixed2 totalValue, toFixed2 profitLoss, priceChange24h⟩

/-- totalBalance (line 462): sum of parseFloat(h.totalPrice). -/
def totalBalanceOf (hs : List Holding) : ℚ := (hs.map (fun h => h.totalPrice)).sum

/-- totalInvested of the summary (line 463): sum of
parseFloat(h.quantity) * parseFloat(h.avgBuyPrice) over the stored
(rounded) fields. -/
def totalInvestedOf (hs : List Holding) : ℚ :=
  (hs.map (fun h => h.quantity * h.avgBuyPrice)).sum

/-- portfolio24hChange (lines 468-475): reduce of
value * (change / 100), divided by (totalBalance || 1), times 100.
The JS || replaces a falsy (zero) totalBalance by 1.  The subsequent
isNaN guard (line 475) is the identity on ℚ, where no NaN exists. -/
def portfolio24hChangeOf (hs : List Holding) : ℚ :=
  let tB := totalBalanceOf hs
  (hs.map (fun h => h.totalPrice * (h.changeValue / 100))).sum
    / (if tB = 0 then 1 else tB) * 100

/-- The wallet part of the formattedWalletData object (lines 493-505).
The transaction-history formatting and the trading statistics derived from
it (totalTransactions, avgTradeSize, successRate) trade only in
presentation strings, locale dates and Math.random ids and are outside the
embedded fragment; none of the claims touch them.  portfolioROI divides by
totalInvested with no zero guard — JS yields NaN or Infinity there, ℚ
yields 0. -/
structure FormattedWallet where
  holdings : List Holding
  totalBalance : ℚ
  totalInvested : ℚ
  totalProfitLoss : ℚ
  portfolioROI : ℚ
  portfolio24hChange : ℚ
  totalAssets : Nat
deriving DecidableEq, Repr

/-- The aggregation getWalletData performs on a successful wallet fetch
(lines 266-505): group the purchases, build one holding per group, then
the portfolio statistics. -/
def aggregateWallet (ps : List Purchase) (env : PriceEnv) : FormattedWallet :=
  let gs := groupPurchases ps
  let hs := gs.map (mkHolding env)
  let totalBalance := totalBalanceOf hs
  let totalInvested := totalInvestedOf hs
  let totalProfitLoss := totalBalance - totalInvested
  ⟨hs, totalBalance, totalInvested, totalProfitLoss,
   totalProfitLoss / totalInvested * 100, portfolio24hChangeOf hs, hs.length⟩

/-- The module-level wallet cache (cors-helper.js lines 21-22):
walletDataCache and walletCacheTimestamp. -/
structure WalletCacheState where
  cache : Option FormattedWallet
  ts : ℚ
deriving DecidableEq, Repr

/-- One getWalletData call: the returned data, the cache state it leaves
behind, and how many network requests it issued. -/
structure WalletRun where
  data : FormattedWallet
  st : WalletCacheState
  fetches : Nat
deriving DecidableEq, Repr

/-- The fresh (cache-miss) path of getWalletData: one wallet fetch plus
one price fetch per coin group, and the cache updated to the new result
at the current time (lines 511-513). -/
def freshWalletRun (ps : List Purchase) (env : PriceEnv) (now : ℚ) : WalletRun :=
  let w := aggregateWallet ps env
  ⟨w, ⟨some w, now⟩, 1 + (groupPurchases ps).length⟩

/-- getWalletData (lines 217-516) on the successful-wallet-fetch domain:
cache check first (line 220: walletDataCache truthy and now − timestamp <
CACHE_DURATION returns the cached object verbatim with no network
traffic), else the fresh path.  `ps` is the purchases array the /wallet
endpoint would return now.  The catch path (a failed wallet fetch, lines
517-588, which returns an uncached empty mock) is outside this domain. -/
def getWalletData (st : WalletCacheState) (now : ℚ) (ps : List Purchase)
    (env : PriceEnv) : WalletRun :=
  match st.cache with
  | some d => if now - st.ts < CACHE_DURATION then ⟨d, st, 0⟩ else freshWalletRun ps env now
  | none => freshWalletRun ps env now

/-- One element of the walletData array dashboard.js renders: the two
fields renderPortfolioSummary reads for the 24h computation
(parseFloat(holding.totalPrice || 0) and
parseFloat(holding.dailyChangeValue || 0), lines 312-318). -/
structure DHolding where
  totalPrice : ℚ
  dailyChangeValue : ℚ
deriving DecidableEq, Repr

/-- The weighted 24h change of renderPortfolioSummary (dashboard.js lines
321-334): total the values; only when the total is positive accumulate
changePercent * (value / total), else the accumulator stays 0. -/
def dashboardWeightedDailyChange (ws : List DHolding) : ℚ :=
  let totalPortfolioValue := (ws.map (fun h => h.totalPrice)).sum
  if 0 < totalPortfolioValue then
    (ws.map (fun h => h.dailyChangeValue * (h.totalPrice / totalPortfolioValue))).sum
  else 0

/-- One element of user.purchases (server.js userSchema lines 105-112). -/
structure Entry where
  coin : String
  quantity : ℚ
  totalPrice : ℚ
deriving DecidableEq, Repr

/-- One element of user.transactions (lines 113-121); the schema calls the
first field `type`. -/
structure Txn where
  kind : String
  coin : String
  quantity : ℚ
  totalPrice : ℚ
deriving DecidableEq, Repr

/-- The two per-user arrays the buy and sell routes read and write. -/
structure UserState where
  purchases : List Entry
  transactions : List Txn
deriving DecidableEq, Repr

/-- An HTTP route outcome together with the user document as saved (for a
rejection, unchanged). -/
structure RouteOut where
  success : Bool
  status : Nat
  message : String
  state : UserState
deriving DecidableEq, Repr

/-- Replace the first purchase entry for the coin, leave the rest — the
effect of mutating the entry user.purchases.find returned. -/
def updateFirstEntry (coin : String) (f : Entry → Entry) : List Entry → List Entry
  | [] => []
  | e :: es => if e.coin = coin then f e :: es else e :: updateFirstEntry coin f es

/-- POST /buy (server.js lines 287-350).  The validation at line 290
rejects a falsy coin (empty string), a falsy or non-positive quantity and
a falsy or non-positive totalPrice.  An existing purchase for the coin
(find, line 302) gains quantity and totalPrice; otherwise a new entry is
pushed.  A Buy transaction is always appended. -/
def buyRoute (u : UserState) (coin : String) (quantity totalPrice : ℚ) : RouteOut :=
  if coin = "" ∨ quantity ≤ 0 ∨ totalPrice ≤ 0 then
    ⟨false, 400, "All fields are required and must be valid", u⟩
  else
    let purchases :=
      match u.purchases.find? (fun p => p.coin == coin) with
      | some _ =>
          updateFirstEntry coin
            (fun p => { p with quantity := p.quantity + quantity,
                               totalPrice := p.totalPrice + totalPrice }) u.purchases
      | none => u.purchases ++ [⟨coin, quantity, totalPrice⟩]
    ⟨true, 200, "Successfully purchased",
     ⟨purchases, u.transactions ++ [⟨"Buy", coin, quantity, totalPrice⟩]⟩⟩

/-- POST /sell (server.js lines 353-416).  Same validation; a missing
entry or one holding less than the requested quantity is rejected with
status 400 before any mutation (line 370).  Otherwise the entry loses the
sold quantity and — verbatim, not proportionally — the request totalPrice
(lines 375-376); if the remaining quantity is ≤ 0 every entry for the coin
is filtered out (lines 379-381); a Sell transaction is appended. -/
def sellRoute (u : UserState) (coin : String) (quantity totalPrice : ℚ) : RouteOut :=
  if coin = "" ∨ quantity ≤ 0 ∨ totalPrice ≤ 0 then
    ⟨false, 400, "All fields are required and must be valid.", u⟩
  else
    match u.purchases.find? (fun p => p.coin == coin) with
    | none => ⟨false, 400, "Insufficient quantity to sell.", u⟩
    | some p =>
        if p.quantity < quantity then
          ⟨false, 400, "Insufficient quantity to sell.", u⟩
        else
          let purchases1 :=
            updateFirstEntry coin
              (fun e => { e with quantity := e.quantity - quantity,
                                 totalPrice := e.totalPrice - totalPrice }) u.purchases
          let purchases2 :=
            if p.quantity - quantity ≤ 0 then
              purchases1.filter (fun e => e.coin != coin)
            else purchases1
          ⟨true, 200, "Successfully sold",
           ⟨purchases2, u.transactions ++ [⟨"Sell", coin, quantity, totalPrice⟩]⟩⟩

/-- The state invariant of the purchases array claimed by C10: every coin
has at most one entry, and every entry has positive quantity. -/
def PurchasesInvariant (u : UserState) : Prop :=
  (u.purchases.map (fun e => e.coin)).Nodup ∧ ∀ e ∈ u.purchases, 0 < e.quantity

instance (u : UserState) : Decidable (PurchasesInvariant u) := by
  unfold PurchasesInvariant; infer_instance

/-! Helper lemmas shared by several claims. -/

lemma basePrice_pos (s : String) : 0 < basePrice s := by
  unfold basePrice; split_ifs <;> norm_num

lemma mockCryptoPrice_band (s : String) (r : ℚ) (h0 : 0 ≤ r) (h1 : r ≤ 1) :
    basePrice s * (95/100) ≤ mockCryptoPrice s r
      ∧ mockCryptoPrice s r ≤ basePrice s * (105/100) := by
  have hb := basePrice_pos s
  unfold mockCryptoPrice
  constructor
  · nlinarith [mul_nonneg hb.le h0]
  · nlinarith [mul_nonneg hb.le (sub_nonneg.mpr h1)]

lemma mockCryptoPrice_pos (s : String) (r : ℚ) (h0 : 0 ≤ r) (h1 : r ≤ 1) :
    0 < mockCryptoPrice s r := by
  have hb := basePrice_pos s
  have := (mockCryptoPrice_band s r h0 h1).1
  nlinarith

/-! Claim C8. -/

/-- C8: mockCryptoPrice is, for every symbol and every Math.random draw,
within the ±5 percent band around its fixed base price; the table carries
BTC 50000, ETH 3000, DOGE 0.25, XRP 1.2, ADA 2.5, SOL 150, DOT 30, LTC
180, and every symbol outside the table gets base 100.  The function is a
pure function of the symbol and the draw (its Lean embedding has no state
at all), so it has no side effects. -/
theorem c8_mock_price_band (s : String) (r : ℚ) (h0 : 0 ≤ r) (h1 : r ≤ 1) :
    (basePrice s * (95/100) ≤ mockCryptoPrice s r
      ∧ mockCryptoPrice s r ≤ basePrice s * (105/100))
    ∧ (s ∉ knownSymbols → basePrice s = 100)
    ∧ basePrice "BTC" = 50000 ∧ basePrice "ETH" = 3000
    ∧ basePrice "DOGE" = 1/4 ∧ basePrice "XRP" = 6/5
    ∧ basePrice "ADA" = 5/2 ∧ basePrice "SOL" = 150
    ∧ basePrice "DOT" = 30 ∧ basePrice "LTC" = 180 := by
  refine ⟨mockCryptoPrice_band s r h0 h1, ?_, ?_, ?_, ?_, ?_, ?_, ?_, ?_, ?_⟩
  · intro hs
    simp only [knownSymbols, List.mem_cons, List.not_mem_nil, or_false, not_or] at hs
    obtain ⟨n1, n2, n3, n4, n5, n6, n7, n8⟩ := hs
    simp [basePrice, n1, n2, n3, n4, n5, n6, n7, n8]
  all_goals simp [basePrice]

/-- Witness for C8 at a symbol outside the table and the draw 1/2. -/
theorem c8_mock_price_band_witness :
    ((basePrice "FOO" * (95/100) ≤ mockCryptoPrice "FOO" (1/2)
        ∧ mockCryptoPrice "FOO" (1/2) ≤ basePrice "FOO" * (105/100))
      ∧ ("FOO" ∉ knownSymbols → basePrice "FOO" = 100)
      ∧ basePrice "BTC" = 50000 ∧ basePrice "ETH" = 3000
      ∧ basePrice "DOGE" = 1/4 ∧ basePrice "XRP" = 6/5
      ∧ basePrice "ADA" = 5/2 ∧ basePrice "SOL" = 150
      ∧ basePrice "DOT" = 30 ∧ basePrice "LTC" = 180) ∧ basePrice "FOO" = 100 :=
  ⟨c8_mock_price_band "FOO" (1/2) (by norm_num) (by norm_num),
   (c8_mock_price_band "FOO" (1/2) (by norm_num) (by norm_num)).2.1 (by decide)⟩

/-! Claim C3. -/

/-- Concrete aggregation input of C3: a buy of 1 unit at unit price 30000
followed by a buy of 0.5 units at unit price 40000, same asset. -/
def c3purchases : List Purchase := [⟨"Bitcoin", 1, 30000⟩, ⟨"Bitcoin", 1/2, 40000⟩]

/-- A price environment for C3 (its values do not affect the three
quantities the claim fixes: the group totals are nonzero, so neither the
mock path nor the invested fallback engages). -/
def c3env : PriceEnv :=
  ⟨fun _ => .ok true (some 60000) (some 57000), fun _ => 1/2, fun _ => 1/2⟩

/-- C3: two buys of one asset, 1 unit at 30000 and 0.5 units at 40000,
accumulate to quantity 1.5 and totalInvested 50000, and the emitted
holding carries quantity 1.5 and avgBuyPrice 33333.33 =
toFixed2(totalInvested / quantity). -/
theorem c3_two_buys_aggregation :
    (groupPurchases c3purchases).map (fun g => (g.quantity, g.totalInvested))
        = [(3/2, 50000)]
    ∧ (aggregateWallet c3purchases c3env).holdings.map
        (fun h => (h.quantity, h.avgBuyPrice)) = [(3/2, 3333333/100)]
    ∧ toFixed2 (50000 / (3/2)) = 3333333/100 := by
  refine ⟨?_, ?_, ?_⟩
  · simp [groupPurchases, c3purchases, addPurchase, updateFirstGroup, coinSymbol, coinIcon]
    norm_num
  · simp [aggregateWallet, groupPurchases, c3purchases, c3env, addPurchase, updateFirstGroup,
      coinSymbol, coinIcon, mkHolding, toFixed4, toFixed2]
    norm_num
  · norm_num [toFixed2]

/-! Claim C2. -/

/-- Concrete input of the C2 counterexample: one purchase record with
quantity 0, so its asset group accumulates quantity 0. -/
def c2purchases : List Purchase := [⟨"Bitcoin", 0, 30000⟩]

/-- A price environment answering 50000 (previous 47500) for the BTC
query. -/
def c2env : PriceEnv :=
  ⟨fun _ => .ok true (some 50000) (some 47500), fun _ => 1/2, fun _ => 1/2⟩

/-- Counterexample to C2 as stated: the group accumulated from a single
quantity-0 purchase is NOT excluded — a holding is emitted for it
(holdings has length 1) and it contributes 5 = 0.0001 * 50000 to
totalValue, which is therefore not 0. -/
theorem c2_counterexample :
    (aggregateWallet c2purchases c2env).holdings.length = 1
    ∧ (aggregateWallet c2purchases c2env).totalBalance = 5
    ∧ (aggregateWallet c2purchases c2env).totalBalance ≠ 0 := by
  have h5 : (aggregateWallet c2purchases c2env).totalBalance = 5 := by
    simp [aggregateWallet, groupPurchases, c2purchases, c2env, addPurchase, updateFirstGroup,
      coinSymbol, coinIcon, mkHolding, toFixed4, toFixed2, totalBalanceOf]
    norm_num
  refine ⟨?_, h5, by rw [h5]; norm_num⟩
  simp [aggregateWallet, groupPurchases, c2purchases, addPurchase]

/-- C2 as amended: the aggregator never drops a group — it emits exactly
one holding per asset group regardless of the accumulated quantity; a
group whose accumulated quantity is 0 is emitted with its quantity
replaced by the floor value 0.0001 (and a negative accumulated quantity
passes through unchanged), so such groups do contribute to the portfolio
totals. -/
theorem c2_no_exclusion_floor (ps : List Purchase) (env : PriceEnv) :
    (aggregateWallet ps env).holdings.length = (groupPurchases ps).length
    ∧ ∀ g ∈ groupPurchases ps, g.quantity = 0 →
        (mkHolding env g).quantity = 1/10000 := by
  constructor
  · simp [aggregateWallet]
  · intro g _ hq
    simp only [mkHolding, hq]
    norm_num [toFixed4]

/-- Witness for C2 at the concrete quantity-0 group. -/
theorem c2_no_exclusion_floor_witness :
    (aggregateWallet c2purchases c2env).holdings.length
        = (groupPurchases c2purchases).length
    ∧ (mkHolding c2env ⟨"Bitcoin", "BTC", "fab fa-bitcoin", 0, 0⟩).quantity = 1/10000 :=
  ⟨(c2_no_exclusion_floor c2purchases c2env).1,
   (c2_no_exclusion_floor c2purchases c2env).2
     ⟨"Bitcoin", "BTC", "fab fa-bitcoin", 0, 0⟩
     (by simp [groupPurchases, c2purchases, addPurchase, coinSymbol, coinIcon])
     (by norm_num)⟩

/-! Claim C1. -/

/-- A total-failure environment: every direct attempt rejects with a
non-rate-limit network error, every proxy fails, Math.random draws 1/2,
the clock reads 0. -/
def c1envAllFail : FetchEnv :=
  ⟨fun _ => .netError "boom", fun _ => .fail "proxy down", 1/2, 0⟩

/-- An environment whose very first direct attempt succeeds with a body
whose price is 0 (fetchWithCORS passes such a body through verbatim). -/
def c1envZeroPrice : FetchEnv :=
  ⟨fun _ => .ok ⟨true, some 0, some "BTC", none, none, none⟩, fun _ => .fail "p", 1/2, 0⟩

/-- Counterexample to C1 as stated: on the crypto-price endpoint, (a) when
every direct and proxy attempt fails the returned mock body has NO source
field at all (source = none — nothing distinguishes live, cached and
synthetic data), and (b) a direct success is passed through verbatim, so
a body with price 0 is returned as-is and price > 0 is not guaranteed
either. -/
theorem c1_counterexample :
    fetchWithCORS "/crypto-price?coin=BTC" c1envAllFail
        = .ok ⟨true, some 50000, some "BTC", some 0, none, none⟩
    ∧ fetchWithCORS "/crypto-price?coin=BTC" c1envZeroPrice
        = .ok ⟨true, some 0, some "BTC", none, none, none⟩ := by
  have hw : isWalletEndpoint "/crypto-price?coin=BTC" = false := by decide
  have hcp : isCryptoPriceEndpoint "/crypto-price?coin=BTC" = true := by decide
  have hcoin : extractCoin "/crypto-price?coin=BTC" = "BTC" := by decide
  have hrl : rateLimitText "boom" = false := by decide
  have hmock : mockCryptoPrice "BTC" (1/2) = 50000 := by
    norm_num [mockCryptoPrice, basePrice]
  constructor
  · simp [fetchWithCORS, hw, directGo, MAX_RETRIES, hrl, c1envAllFail,
      fetchAfterDirect, proxyScanList, hcp, hcoin]
    norm_num [mockCryptoPrice, basePrice]
  · simp [fetchWithCORS, hw, directGo, MAX_RETRIES, c1envZeroPrice]

/-- C1 as amended: for every crypto-price endpoint and every combination
of direct and proxy outcomes, fetchWithCORS resolves with a JSON body and
never throws; on total failure the body is the synthetic one — success
true, the mock price of the extracted coin (strictly positive), the coin
symbol and a timestamp — and carries no source field, so the outcome tag
the claim describes does not exist in any path. -/
theorem c1_crypto_price_never_throws
    (endpoint : String) (env : FetchEnv)
    (hcp : isCryptoPriceEndpoint endpoint = true)
    (hw : isWalletEndpoint endpoint = false)
    (h0 : 0 ≤ env.rand) (h1 : env.rand ≤ 1) :
    (∃ b, fetchWithCORS endpoint env = .ok b)
    ∧ ((directGo env MAX_RETRIES 0).result = none →
        (∀ i : Fin 3, ∃ m, env.proxy i = .fail m) →
        fetchWithCORS endpoint env
          = .ok ⟨true, some (mockCryptoPrice (extractCoin endpoint) env.rand),
                 some (extractCoin endpoint), some env.now, none, none⟩
        ∧ 0 < mockCryptoPrice (extractCoin endpoint) env.rand) := by
  constructor
  · cases hres : (directGo env MAX_RETRIES 0).result with
    | some b => exact ⟨b, by simp [fetchWithCORS, hw, hres]⟩
    | none =>
      cases hps : proxyScanList [env.proxy 0, env.proxy 1, env.proxy 2] none with
      | ok b => exact ⟨b, by simp [fetchWithCORS, hw, hres, fetchAfterDirect, hps]⟩
      | error m =>
        exact ⟨⟨true, some (mockCryptoPrice (extractCoin endpoint) env.rand),
                some (extractCoin endpoint), some env.now, none, none⟩,
               by simp [fetchWithCORS, hw, hres, fetchAfterDirect, hps, hcp]⟩
  · intro hres hfail
    obtain ⟨m0, hp0⟩ := hfail 0
    obtain ⟨m1, hp1⟩ := hfail 1
    obtain ⟨m2, hp2⟩ := hfail 2
    have hps : proxyScanList [env.proxy 0, env.proxy 1, env.proxy 2] none = .error m2 := by
      rw [hp0, hp1, hp2]; rfl
    refine ⟨by simp [fetchWithCORS, hw, hres, fetchAfterDirect, hps, hcp],
            mockCryptoPrice_pos _ _ h0 h1⟩

/-- Witness for C1 at the concrete all-fail environment. -/
theorem c1_crypto_price_never_throws_witness :
    (∃ b, fetchWithCORS "/crypto-price?coin=BTC" c1envAllFail = .ok b)
    ∧ (fetchWithCORS "/crypto-price?coin=BTC" c1envAllFail
         = .ok ⟨true, some (mockCryptoPrice (extractCoin "/crypto-price?coin=BTC") c1envAllFail.rand),
                some (extractCoin "/crypto-price?coin=BTC"), some c1envAllFail.now, none, none⟩
        ∧ 0 < mockCryptoPrice (extractCoin "/crypto-price?coin=BTC") c1envAllFail.rand) :=
  ⟨(c1_crypto_price_never_throws "/crypto-price?coin=BTC" c1envAllFail (by decide) (by decide)
      (by norm_num [c1envAllFail]) (by norm_num [c1envAllFail])).1,
   (c1_crypto_price_never_throws "/crypto-price?coin=BTC" c1envAllFail (by decide) (by decide)
      (by norm_num [c1envAllFail]) (by norm_num [c1envAllFail])).2
     (by decide) (fun i => ⟨"proxy down", rfl⟩)⟩

/-! Claim C6. -/

lemma directGo_fetches_le (env : FetchEnv) :
    ∀ (fuel a : Nat), (directGo env fuel a).fetches ≤ fuel := by
  intro fuel
  induction fuel with
  | zero => intro a; simp [directGo]
  | succ n ih =>
    intro a
    unfold directGo
    cases env.direct a with
    | ok b => simp
    | okText t => simp
    | rateLimited ra => simpa using Nat.succ_le_succ (ih (a + 1))
    | httpError status msg =>
        dsimp only
        split
        · simp
        · split
          · simpa using Nat.succ_le_succ (ih (a + 1))
          · simp
    | netError m =>
        dsimp only
        split
        · simp
        · split
          · simpa using Nat.succ_le_succ (ih (a + 1))
          · simp

/-- C6 as amended: the direct phase performs at most MAX_RETRIES = 3
fetch attempts; when every attempt is a 429, the three recorded delays
are Retry-After when the response supplies it and otherwise the
exponential 1000ms * 2^attempt — the upstream value REPLACES the
exponential delay rather than capping it — and with the direct result
exhausted (none) fetchWithCORS proceeds with the proxy chain. -/
theorem c6_direct_retry_policy (env : FetchEnv) (ra0 ra1 ra2 : Option ℚ)
    (endpoint : String) :
    (directGo env MAX_RETRIES 0).fetches ≤ MAX_RETRIES
    ∧ directGo
        { env with direct := fun a =>
            .rateLimited (if a = 0 then ra0 else if a = 1 then ra1 else ra2) }
        MAX_RETRIES 0
        = ⟨none, 3, [ra0.getD (INITIAL_RETRY_DELAY * 2 ^ 0),
                     ra1.getD (INITIAL_RETRY_DELAY * 2 ^ 1),
                     ra2.getD (INITIAL_RETRY_DELAY * 2 ^ 2)]⟩
    ∧ (isWalletEndpoint endpoint = false →
        (directGo env MAX_RETRIES 0).result = none →
        fetchWithCORS endpoint env = fetchAfterDirect endpoint env) := by
  refine ⟨directGo_fetches_le env MAX_RETRIES 0, ?_, ?_⟩
  · simp [directGo, MAX_RETRIES]
  · intro hw hres
    simp [fetchWithCORS, hw, hres]

/-- The environment of the C6 counterexample: every direct attempt is a
429 carrying Retry-After 5000ms. -/
def c6env : FetchEnv :=
  ⟨fun _ => .rateLimited (some 5000), fun _ => .fail "p", 1/2, 0⟩

/-- Counterexample to C6 as stated: with Retry-After 5000 on the first
attempt the recorded delay is 5000ms, whereas an exponential delay capped
by Retry-After would be min(1000, 5000) = 1000ms — the header value
replaces the backoff, it does not cap it. -/
theorem c6_counterexample :
    (directGo c6env MAX_RETRIES 0).delays.head? = some 5000
    ∧ min (INITIAL_RETRY_DELAY * 2 ^ 0) 5000 = 1000
    ∧ (5000 : ℚ) ≠ 1000 := by
  refine ⟨?_, ?_, by norm_num⟩
  · simp [directGo, MAX_RETRIES, c6env]
  · norm_num [INITIAL_RETRY_DELAY, min_def]

/-- The environment of the C6 witness: direct attempts all reject with a
plain network error, so the direct phase ends with no result. -/
def c6envB : FetchEnv :=
  ⟨fun _ => .netError "offline", fun _ => .fail "p", 1/2, 0⟩

/-- Witness for C6 at a concrete environment and endpoint. -/
theorem c6_direct_retry_policy_witness :
    (directGo c6envB MAX_RETRIES 0).fetches ≤ MAX_RETRIES
    ∧ directGo
        { c6envB with direct := fun a =>
            .rateLimited (if a = 0 then some 7 else if a = 1 then none else some 9) }
        MAX_RETRIES 0
        = ⟨none, 3, [(some 7).getD (INITIAL_RETRY_DELAY * 2 ^ 0),
                     (none : Option ℚ).getD (INITIAL_RETRY_DELAY * 2 ^ 1),
                     (some 9).getD (INITIAL_RETRY_DELAY * 2 ^ 2)]⟩
    ∧ fetchWithCORS "/crypto-price?coin=ETH" c6envB
        = fetchAfterDirect "/crypto-price?coin=ETH" c6envB :=
  ⟨(c6_direct_retry_policy c6envB (some 7) none (some 9) "/crypto-price?coin=ETH").1,
   (c6_direct_retry_policy c6envB (some 7) none (some 9) "/crypto-price?coin=ETH").2.1,
   (c6_direct_retry_policy c6envB (some 7) none (some 9) "/crypto-price?coin=ETH").2.2
     (by decide) (by decide)⟩

/-! Claim C5. -/

lemma list_sum_div_mul (l : List Holding) (t : ℚ) (ht : t ≠ 0) :
    (l.map (fun h => h.totalPrice * (h.changeValue / 100))).sum / t * 100
      = (l.map (fun h => h.totalPrice / t * h.changeValue)).sum := by
  induction l with
  | nil => simp
  | cons h tl ih =>
    simp only [List.map_cons, List.sum_cons, add_div, add_mul]
    rw [ih]
    congr 1
    field_simp
    ring

lemma list_all_zero_of_sum_zero (l : List ℚ) (h0 : ∀ x ∈ l, 0 ≤ x)
    (hs : l.sum = 0) : ∀ x ∈ l, x = 0 := by
  induction l with
  | nil => simp
  | cons a tl ih =>
    have ha : 0 ≤ a := h0 a (by simp)
    have htl : ∀ x ∈ tl, 0 ≤ x := fun x hx => h0 x (by simp [hx])
    have hsum : 0 ≤ tl.sum := List.sum_nonneg htl
    simp only [List.sum_cons] at hs
    have ha0 : a = 0 := by linarith
    have htl0 : tl.sum = 0 := by linarith
    intro x hx
    rcases List.mem_cons.mp hx with rfl | hx2
    · exact ha0
    · exact ih htl htl0 x hx2

lemma dash_sum_comm (l : List DHolding) (t : ℚ) :
    (l.map (fun h => h.dailyChangeValue * (h.totalPrice / t))).sum
      = (l.map (fun h => h.totalPrice / t * h.dailyChangeValue)).sum := by
  induction l with
  | nil => simp
  | cons h tl ih =>
    simp only [List.map_cons, List.sum_cons]
    rw [ih]
    congr 1
    ring

/-- C5: the portfolio 24h change is the value-weighted average of the
holdings' 24h change percentages whenever totalValue is positive, and is
0 when totalValue is 0 — in the getWalletData summary (portfolio24hChange)
the zero case additionally relies on no holding having negative stored
value, which holds for every reachable holdings list since the backend
keeps purchase quantities positive; the dashboard rendering
(renderPortfolioSummary) satisfies both cases with no side condition. -/
theorem c5_weighted_24h_change (hs : List Holding) (ds : List DHolding) :
    (0 < totalBalanceOf hs →
      portfolio24hChangeOf hs
        = (hs.map (fun h => h.totalPrice / totalBalanceOf hs * h.changeValue)).sum)
    ∧ ((∀ h ∈ hs, 0 ≤ h.totalPrice) → totalBalanceOf hs = 0 →
        portfolio24hChangeOf hs = 0)
    ∧ dashboardWeightedDailyChange ds
        = (if 0 < (ds.map (fun h => h.totalPrice)).sum then
            (ds.map (fun h => h.totalPrice / (ds.map (fun h2 => h2.totalPrice)).sum
                * h.dailyChangeValue)).sum
          else 0) := by
  refine ⟨?_, ?_, ?_⟩
  · intro ht
    have hne : totalBalanceOf hs ≠ 0 := ne_of_gt ht
    simp only [portfolio24hChangeOf, if_neg hne]
    exact list_sum_div_mul hs _ hne
  · intro hnn ht0
    have hall : ∀ x ∈ hs.map (fun h => h.totalPrice), 0 ≤ x := by
      intro y hy
      obtain ⟨h2, hh2, rfl⟩ := List.mem_map.mp hy
      exact hnn h2 hh2
    have hzero : ∀ x ∈ hs.map (fun h => h.totalPrice * (h.changeValue / 100)), x = 0 := by
      intro x hx
      obtain ⟨h, hh, rfl⟩ := List.mem_map.mp hx
      have hv0 : h.totalPrice = 0 :=
        list_all_zero_of_sum_zero (hs.map (fun h => h.totalPrice)) hall
          (by simpa [totalBalanceOf] using ht0)
          h.totalPrice (List.mem_map_of_mem _ hh)
      simp [hv0]
    simp only [portfolio24hChangeOf, if_pos ht0, List.sum_eq_zero hzero]
    norm_num
  · simp only [dashboardWeightedDailyChange]
    by_cases hT : 0 < (ds.map (fun h => h.totalPrice)).sum
    · simp only [if_pos hT]
      exact dash_sum_comm ds _
    · simp only [if_neg hT]

/-- A holding with positive stored value and a 10 percent daily change,
for the C5 witness. -/
def c5holdings : List Holding := [⟨"Bitcoin", "BTC", "fab fa-bitcoin", 1, 1, 5, 5, 0, 10⟩]

/-- A holdings list whose only stored value is 0, for the C5 witness. -/
def c5holdingsZero : List Holding := [⟨"Bitcoin", "BTC", "fab fa-bitcoin", 1, 1, 5, 0, 0, 7⟩]

/-- A dashboard wallet row for the C5 witness. -/
def c5dash : List DHolding := [⟨5, 10⟩]

/-- Witness for C5 at concrete holdings lists. -/
theorem c5_weighted_24h_change_witness :
    portfolio24hChangeOf c5holdings
      = (c5holdings.map (fun h => h.totalPrice / totalBalanceOf c5holdings * h.changeValue)).sum
    ∧ portfolio24hChangeOf c5holdingsZero = 0
    ∧ dashboardWeightedDailyChange c5dash
        = (if 0 < (c5dash.map (fun h => h.totalPrice)).sum then
            (c5dash.map (fun h => h.totalPrice / (c5dash.map (fun h2 => h2.totalPrice)).sum
                * h.dailyChangeValue)).sum
          else 0) :=
  ⟨(c5_weighted_24h_change c5holdings c5dash).1
      (by norm_num [totalBalanceOf, c5holdings]),
   (c5_weighted_24h_change c5holdingsZero c5dash).2.1
      (by intro h hh; simp only [c5holdingsZero, List.mem_singleton] at hh; subst hh; norm_num)
      (by norm_num [totalBalanceOf, c5holdingsZero]),
   (c5_weighted_24h_change c5holdings c5dash).2.2⟩

/-! Claim C7. -/

/-- C7 as amended: while the cache holds a value and now − timestamp is
within CACHE_DURATION, getWalletData returns the cached object verbatim —
identical content, unchanged cache state, zero network requests — for
EVERY current purchases list and price environment (the cache is one
process-wide snapshot, not keyed by symbol); once the TTL has lapsed the
call bypasses the cache, recomputes from the live inputs and stores the
new value at the current time, issuing at least one network request. -/
theorem c7_cache_ttl (st : WalletCacheState) (now : ℚ) (ps : List Purchase)
    (env : PriceEnv) (d : FormattedWallet) :
    (st.cache = some d → now - st.ts < CACHE_DURATION →
      getWalletData st now ps env = ⟨d, st, 0⟩)
    ∧ (st.cache = some d → ¬(now - st.ts < CACHE_DURATION) →
        getWalletData st now ps env = freshWalletRun ps env now
        ∧ (getWalletData st now ps env).st = ⟨some (aggregateWallet ps env), now⟩
        ∧ 1 ≤ (getWalletData st now ps env).fetches) := by
  constructor
  · intro hc ht
    simp [getWalletData, hc, ht]
  · intro hc ht
    have h1 : getWalletData st now ps env = freshWalletRun ps env now := by
      simp [getWalletData, hc, ht]
    refine ⟨h1, by rw [h1]; rfl, ?_⟩
    rw [h1]
    simp only [freshWalletRun]
    omega

/-- The purchases and prices of the C7 scenario: first a wallet holding
only Bitcoin, then the same wallet after an Ethereum purchase. -/
def c7purchases1 : List Purchase := [⟨"Bitcoin", 1, 30000⟩]

def c7purchases2 : List Purchase := [⟨"Bitcoin", 1, 30000⟩, ⟨"Ethereum", 2, 2000⟩]

/-- A price environment answering the same successful quote for every
coin query. -/
def c7env : PriceEnv :=
  ⟨fun _ => .ok true (some 50000) (some 47500), fun _ => 1/2, fun _ => 1/2⟩

/-- Counterexample to C7 as stated: after a first call caches the
Bitcoin-only wallet at time 0, a second call at time 5000 — within the
TTL — whose wallet now also contains Ethereum issues ZERO network
requests and returns the cached snapshot with a single holding; a cache
keyed by symbol would have to look the uncached Ethereum symbol up (a
fresh aggregation yields two holdings).  The cache is one global
snapshot, not a per-symbol quote cache. -/
theorem c7_counterexample :
    (getWalletData (getWalletData ⟨none, 0⟩ 0 c7purchases1 c7env).st 5000
        c7purchases2 c7env).fetches = 0
    ∧ (getWalletData (getWalletData ⟨none, 0⟩ 0 c7purchases1 c7env).st 5000
        c7purchases2 c7env).data.holdings.length = 1
    ∧ (aggregateWallet c7purchases2 c7env).holdings.length = 2 := by
  have hfirst : (getWalletData ⟨none, 0⟩ 0 c7purchases1 c7env).st
      = ⟨some (aggregateWallet c7purchases1 c7env), 0⟩ := by
    simp [getWalletData, freshWalletRun]
  have hsecond : getWalletData ⟨some (aggregateWallet c7purchases1 c7env), 0⟩ 5000
      c7purchases2 c7env
      = ⟨aggregateWallet c7purchases1 c7env,
         ⟨some (aggregateWallet c7purchases1 c7env), 0⟩, 0⟩ := by
    simp only [getWalletData]
    rw [if_pos (by norm_num [CACHE_DURATION])]
  rw [hfirst, hsecond]
  refine ⟨rfl, ?_, ?_⟩
  · simp [aggregateWallet, groupPurchases, c7purchases1, addPurchase]
  · simp [aggregateWallet, groupPurchases, c7purchases2, addPurchase,
      updateFirstGroup, coinSymbol, coinIcon]

/-- The cached snapshot used by the C7 witness. -/
def c7wallet : FormattedWallet := aggregateWallet c7purchases1 c7env

/-- Witness for C7: a call at time 5000 against a cache written at time 0
hits it; a call at time 20000 misses and recomputes. -/
theorem c7_cache_ttl_witness :
    getWalletData ⟨some c7wallet, 0⟩ 5000 c7purchases1 c7env = ⟨c7wallet, ⟨some c7wallet, 0⟩, 0⟩
    ∧ (getWalletData ⟨some c7wallet, 0⟩ 20000 c7purchases1 c7env
          = freshWalletRun c7purchases1 c7env 20000
        ∧ (getWalletData ⟨some c7wallet, 0⟩ 20000 c7purchases1 c7env).st
            = ⟨some (aggregateWallet c7purchases1 c7env), 20000⟩
        ∧ 1 ≤ (getWalletData ⟨some c7wallet, 0⟩ 20000 c7purchases1 c7env).fetches) :=
  ⟨(c7_cache_ttl ⟨some c7wallet, 0⟩ 5000 c7purchases1 c7env c7wallet).1 rfl
      (by norm_num [CACHE_DURATION]),
   (c7_cache_ttl ⟨some c7wallet, 0⟩ 20000 c7purchases1 c7env c7wallet).2 rfl
      (by norm_num [CACHE_DURATION])⟩

/-! Claims C4, C9, C10: the buy and sell routes. -/

lemma find?_updateFirstEntry (coin : String) (f : Entry → Entry)
    (hf : ∀ e, (f e).coin = e.coin) :
    ∀ (l : List Entry) (p : Entry),
      l.find? (fun e => e.coin == coin) = some p →
      (updateFirstEntry coin f l).find? (fun e => e.coin == coin) = some (f p) := by
  intro l
  induction l with
  | nil => intro p h; simp at h
  | cons e es ih =>
    intro p h
    by_cases hc : e.coin = coin
    · rw [List.find?_cons_of_pos _ (by simp [hc])] at h
      injection h with h2
      subst h2
      unfold updateFirstEntry
      rw [if_pos hc]
      exact List.find?_cons_of_pos _ (by simp [hf, hc])
    · rw [List.find?_cons_of_neg _ (by simp [hc])] at h
      unfold updateFirstEntry
      rw [if_neg hc]
      rw [List.find?_cons_of_neg _ (by simp [hc])]
      exact ih p h

lemma updateFirstEntry_map_coin (coin : String) (f : Entry → Entry)
    (hf : ∀ e, (f e).coin = e.coin) :
    ∀ l : List Entry,
      (updateFirstEntry coin f l).map (fun e => e.coin) = l.map (fun e => e.coin) := by
  intro l
  induction l with
  | nil => rfl
  | cons e es ih =>
    unfold updateFirstEntry
    by_cases hc : e.coin = coin
    · rw [if_pos hc]; simp [hf]
    · rw [if_neg hc]; simp [ih]

lemma mem_updateFirstEntry_of_find? (coin : String) (f : Entry → Entry) :
    ∀ (l : List Entry) (p : Entry),
      l.find? (fun e => e.coin == coin) = some p →
      ∀ x ∈ updateFirstEntry coin f l, x ∈ l ∨ x = f p := by
  intro l
  induction l with
  | nil => intro p h; simp at h
  | cons e es ih =>
    intro p h x hx
    by_cases hc : e.coin = coin
    · rw [List.find?_cons_of_pos _ (by simp [hc])] at h
      injection h with h2
      subst h2
      unfold updateFirstEntry at hx
      rw [if_pos hc] at hx
      rcases List.mem_cons.mp hx with rfl | hx2
      · exact Or.inr rfl
      · exact Or.inl (List.mem_cons_of_mem _ hx2)
    · rw [List.find?_cons_of_neg _ (by simp [hc])] at h
      unfold updateFirstEntry at hx
      rw [if_neg hc] at hx
      rcases List.mem_cons.mp hx with rfl | hx2
      · exact Or.inl (List.mem_cons_self _ _)
      · rcases ih p h x hx2 with h3 | h3
        · exact Or.inl (List.mem_cons_of_mem _ h3)
        · exact Or.inr h3

lemma sellRoute_success_eq (u : UserState) (coin : String) (q tp : ℚ) (p : Entry)
    (hval : ¬(coin = "" ∨ q ≤ 0 ∨ tp ≤ 0))
    (hfind : u.purchases.find? (fun e => e.coin == coin) = some p)
    (hnotlt : ¬(p.quantity < q)) :
    sellRoute u coin q tp
      = ⟨true, 200, "Successfully sold",
         ⟨(if p.quantity - q ≤ 0 then
             (updateFirstEntry coin
               (fun e => { e with quantity := e.quantity - q,
                                  totalPrice := e.totalPrice - tp }) u.purchases).filter
               (fun e => e.coin != coin)
           else
             updateFirstEntry coin
               (fun e => { e with quantity := e.quantity - q,
                                  totalPrice := e.totalPrice - tp }) u.purchases),
          u.transactions ++ [⟨"Sell", coin, q, tp⟩]⟩⟩ := by
  unfold sellRoute
  rw [if_neg hval, hfind]
  dsimp only
  rw [if_neg hnotlt]

/-- C4: a sell (passing validation, for a held coin, with enough quantity
so that the entry survives) subtracts the sold quantity from the entry and
subtracts the request totalPrice verbatim — not a proportional share of
cost basis — from the entry totalPrice. -/
theorem c4_sell_subtracts_verbatim (u : UserState) (coin : String) (q tp : ℚ)
    (p : Entry)
    (hval : ¬(coin = "" ∨ q ≤ 0 ∨ tp ≤ 0))
    (hfind : u.purchases.find? (fun e => e.coin == coin) = some p)
    (hq : q ≤ p.quantity) (hrem : 0 < p.quantity - q) :
    (sellRoute u coin q tp).success = true
    ∧ (sellRoute u coin q tp).state.purchases.find? (fun e => e.coin == coin)
        = some ⟨p.coin, p.quantity - q, p.totalPrice - tp⟩ := by
  have hnotlt : ¬(p.quantity < q) := not_lt.mpr hq
  have hnotle : ¬(p.quantity - q ≤ 0) := not_le.mpr hrem
  rw [sellRoute_success_eq u coin q tp p hval hfind hnotlt]
  refine ⟨rfl, ?_⟩
  rw [if_neg hnotle]
  exact find?_updateFirstEntry coin
    (fun e => { e with quantity := e.quantity - q, totalPrice := e.totalPrice - tp })
    (fun e => rfl) u.purchases p hfind


lemma buyRoute_merge_eq (u : UserState) (coin : String) (q tp : ℚ) (p : Entry)
    (hval : ¬(coin = "" ∨ q ≤ 0 ∨ tp ≤ 0))
    (hfind : u.purchases.find? (fun e => e.coin == coin) = some p) :
    buyRoute u coin q tp
      = ⟨true, 200, "Successfully purchased",
         ⟨updateFirstEntry coin
            (fun e => { e with quantity := e.quantity + q,
                               totalPrice := e.totalPrice + tp }) u.purchases,
          u.transactions ++ [⟨"Buy", coin, q, tp⟩]⟩⟩ := by
  unfold buyRoute
  rw [if_neg hval, hfind]

lemma buyRoute_push_eq (u : UserState) (coin : String) (q tp : ℚ)
    (hval : ¬(coin = "" ∨ q ≤ 0 ∨ tp ≤ 0))
    (hfind : u.purchases.find? (fun e => e.coin == coin) = none) :
    buyRoute u coin q tp
      = ⟨true, 200, "Successfully purchased",
         ⟨u.purchases ++ [⟨coin, q, tp⟩],
          u.transactions ++ [⟨"Buy", coin, q, tp⟩]⟩⟩ := by
  unfold buyRoute
  rw [if_neg hval, hfind]

lemma purchases_inv_buy (u : UserState) (coin : String) (q tp : ℚ)
    (hinv : PurchasesInvariant u) :
    PurchasesInvariant (buyRoute u coin q tp).state := by
  obtain ⟨hnd, hpos⟩ := hinv
  by_cases hval : coin = "" ∨ q ≤ 0 ∨ tp ≤ 0
  · unfold buyRoute
    rw [if_pos hval]
    exact ⟨hnd, hpos⟩
  · have hq : 0 < q := not_le.mp (fun h => hval (Or.inr (Or.inl h)))
    cases hfind : u.purchases.find? (fun e => e.coin == coin) with
    | some p =>
      rw [buyRoute_merge_eq u coin q tp p hval hfind]
      unfold PurchasesInvariant
      dsimp only
      constructor
      · rw [updateFirstEntry_map_coin coin
          (fun e => { e with quantity := e.quantity + q, totalPrice := e.totalPrice + tp })
          (fun e => rfl)]
        exact hnd
      · intro e he
        rcases mem_updateFirstEntry_of_find? coin _ u.purchases p hfind e he with h1 | h1
        · exact hpos e h1
        · have hp := hpos p (List.mem_of_find?_eq_some hfind)
          rw [h1]
          show 0 < p.quantity + q
          linarith
    | none =>
      rw [buyRoute_push_eq u coin q tp hval hfind]
      unfold PurchasesInvariant
      dsimp only
      have hnotin : ∀ x ∈ u.purchases, x.coin ≠ coin := by
        intro x hx
        have := List.find?_eq_none.mp hfind x hx
        simpa using this
      constructor
      · rw [List.map_append, List.nodup_append]
        refine ⟨hnd, by simp, ?_⟩
        intro a ha hb
        simp only [List.map_cons, List.map_nil, List.mem_cons, List.not_mem_nil,
          or_false] at hb
        obtain ⟨x, hx, rfl⟩ := List.mem_map.mp ha
        exact hnotin x hx hb
      · intro e he
        rcases List.mem_append.mp he with h1 | h1
        · exact hpos e h1
        · simp only [List.mem_cons, List.not_mem_nil, or_false] at h1
          rw [h1]
          exact hq

lemma purchases_inv_sell (u : UserState) (coin : String) (q tp : ℚ)
    (hinv : PurchasesInvariant u) :
    PurchasesInvariant (sellRoute u coin q tp).state := by
  obtain ⟨hnd, hpos⟩ := hinv
  by_cases hval : coin = "" ∨ q ≤ 0 ∨ tp ≤ 0
  · unfold sellRoute
    rw [if_pos hval]
    exact ⟨hnd, hpos⟩
  · cases hfind : u.purchases.find? (fun e => e.coin == coin) with
    | none =>
      unfold sellRoute
      rw [if_neg hval, hfind]
      exact ⟨hnd, hpos⟩
    | some p =>
      by_cases hlt : p.quantity < q
      · unfold sellRoute
        rw [if_neg hval, hfind]
        dsimp only
        rw [if_pos hlt]
        exact ⟨hnd, hpos⟩
      · rw [sellRoute_success_eq u coin q tp p hval hfind hlt]
        unfold PurchasesInvariant
        have hpcoin : p.coin = coin := by
          have := List.find?_some hfind
          simpa using this
        have hmapeq := updateFirstEntry_map_coin coin
          (fun e => { e with quantity := e.quantity - q, totalPrice := e.totalPrice - tp })
          (fun e => rfl) u.purchases
        by_cases hrem : p.quantity - q ≤ 0
        · rw [if_pos hrem]
          constructor
          · refine List.Nodup.sublist ((List.filter_sublist _).map _) ?_
            rw [hmapeq]
            exact hnd
          · intro e he
            have hmf := List.mem_filter.mp he
            have hne : e.coin ≠ coin := by simpa using hmf.2
            rcases mem_updateFirstEntry_of_find? coin _ u.purchases p hfind e hmf.1 with h1 | h1
            · exact hpos e h1
            · exfalso
              apply hne
              rw [h1]
              exact hpcoin
        · rw [if_neg hrem]
          constructor
          · rw [hmapeq]
            exact hnd
          · intro e he
            rcases mem_updateFirstEntry_of_find? coin _ u.purchases p hfind e he with h1 | h1
            · exact hpos e h1
            · rw [h1]
              show 0 < p.quantity - q
              linarith [not_le.mp hrem]


/-- Concrete state for the C4 witness: two units of Bitcoin bought for a
total of 100. -/
def c4user : UserState := ⟨[⟨"Bitcoin", 2, 100⟩], []⟩

/-- Witness for C4: selling 1 unit with request totalPrice 30 leaves the
entry at quantity 1 and totalPrice 70 = 100 − 30 (verbatim; a
proportional cost-basis removal would leave 50). -/
theorem c4_sell_subtracts_verbatim_witness :
    (sellRoute c4user "Bitcoin" 1 30).success = true
    ∧ (sellRoute c4user "Bitcoin" 1 30).state.purchases.find?
        (fun e => e.coin == "Bitcoin")
        = some ⟨"Bitcoin", (2 : ℚ) - 1, (100 : ℚ) - 30⟩ :=
  c4_sell_subtracts_verbatim c4user "Bitcoin" 1 30 ⟨"Bitcoin", 2, 100⟩
    (not_or.mpr ⟨by simp, not_or.mpr ⟨by norm_num, by norm_num⟩⟩)
    (by simp [c4user]) (by norm_num) (by norm_num)

/-- C9: a sell request naming a coin the user does not hold, or asking
for more quantity than the held entry has, is rejected with an error
response (success false, status 400) and leaves the entire user state —
purchases and transactions — unchanged. -/
theorem c9_oversell_rejected (u : UserState) (coin : String) (q tp : ℚ)
    (h : u.purchases.find? (fun e => e.coin == coin) = none
      ∨ ∃ p, u.purchases.find? (fun e => e.coin == coin) = some p ∧ p.quantity < q) :
    (sellRoute u coin q tp).success = false
    ∧ (sellRoute u coin q tp).status = 400
    ∧ (sellRoute u coin q tp).state = u := by
  unfold sellRoute
  by_cases hval : coin = "" ∨ q ≤ 0 ∨ tp ≤ 0
  · rw [if_pos hval]
    exact ⟨rfl, rfl, rfl⟩
  · rw [if_neg hval]
    rcases h with hnone | ⟨p, hp, hlt⟩
    · rw [hnone]
      exact ⟨rfl, rfl, rfl⟩
    · rw [hp]
      dsimp only
      rw [if_pos hlt]
      exact ⟨rfl, rfl, rfl⟩

/-- Concrete state for the C9 witness. -/
def c9user : UserState := ⟨[⟨"Bitcoin", 2, 100⟩], [⟨"Buy", "Bitcoin", 2, 100⟩]⟩

/-- Witness for C9: selling 3 units when only 2 are held is rejected and
the state is untouched. -/
theorem c9_oversell_rejected_witness :
    (sellRoute c9user "Bitcoin" 3 30).success = false
    ∧ (sellRoute c9user "Bitcoin" 3 30).status = 400
    ∧ (sellRoute c9user "Bitcoin" 3 30).state = c9user :=
  c9_oversell_rejected c9user "Bitcoin" 3 30
    (Or.inr ⟨⟨"Bitcoin", 2, 100⟩, by simp [c9user], by norm_num⟩)

/-- C10: the purchases-array invariant — at most one entry per coin, and
no entry with quantity ≤ 0 — is preserved by every buy and every sell
request, for every input state satisfying it: a buy into a held coin
merges into the existing entry, a buy of a new coin appends one entry,
and a sell either leaves a positive remainder in the entry or removes the
coin entirely. -/
theorem c10_purchases_invariant (u : UserState) (coin : String) (q tp : ℚ)
    (hinv : PurchasesInvariant u) :
    PurchasesInvariant (buyRoute u coin q tp).state
    ∧ PurchasesInvariant (sellRoute u coin q tp).state :=
  ⟨purchases_inv_buy u coin q tp hinv, purchases_inv_sell u coin q tp hinv⟩

/-- Concrete state for the C10 witness. -/
def c10user : UserState := ⟨[⟨"Bitcoin", 2, 100⟩, ⟨"Ethereum", 1, 50⟩], []⟩

/-- Witness for C10 at a concrete two-coin state and a request that buys
and (separately) sells one unit of Bitcoin. -/
theorem c10_purchases_invariant_witness :
    PurchasesInvariant (buyRoute c10user "Bitcoin" 1 40).state
    ∧ PurchasesInvariant (sellRoute c10user "Bitcoin" 1 40).state :=
  c10_purchases_invariant c10user "Bitcoin" 1 40
    (by constructor
        · simp [c10user]
        · intro e he
          simp only [c10user, List.mem_cons, List.not_mem_nil, or_false] at he
          rcases he with rfl | rfl <;> norm_num)

end CryptoPro
